import Mathlib

/-!
Verification of the trip-progress tracker ("zijn-we-er-al-bijna").

Shallow embedding of the final `ProgressTracker` variant (src/js/progress.js,
the class defined from line 1203), the `ModelRetry` retry wrapper
(src/js/geolocation.js, lines 4-44), and the app-level start flow
`TripApp.handleStartTrip` (src/js/app.js, lines 152-223).

JavaScript numbers are modelled as rationals (ℚ).  The Haversine distance
`GeolocationManager.calculateDistance` is transcendental, so the engine is
parametrised by an abstract distance function `dist : Coord → Coord → ℚ`;
every theorem that depends on particular distances takes them as hypotheses
and is instantiated by a concrete table in its witness.
-/

namespace Bijna

/-- A latitude/longitude pair, as produced by geocoding or the position API. -/
structure Coord where
  lat : ℚ
  lng : ℚ
deriving DecidableEq, Repr

/-- One entry of `tripData.speedHistory`: `{speed, timestamp}` (progress.js 1327-1330). -/
structure SpeedSample where
  speed : ℚ
  timestamp : ℚ
deriving DecidableEq, Repr

/-- Road-type histogram produced by `analyzeRoadTypes` (geolocation.js 1091-1118). -/
structure RoadTypes where
  highway : ℚ
  primary : ℚ
  secondary : ℚ
  residential : ℚ
deriving DecidableEq, Repr

/-- Route data returned by `getRouteInfo` (geolocation.js 1060-1086):
distance (km), duration (minutes), averageSpeed (km/h), roadTypes
(`analyzeRoadTypes` returns null when no speed data is available). -/
structure RouteInfo where
  distance : ℚ
  duration : ℚ
  averageSpeed : ℚ
  roadTypes : Option RoadTypes
deriving DecidableEq, Repr

/-- The engine's `this.tripData` object (progress.js 1261-1273 and 2084-2098). -/
structure TripData where
  origin : Option Coord
  destination : Option Coord
  nextStop : Option Coord
  nextStopOrigin : Option Coord
  nextStopRouteInfo : Option RouteInfo
  startTime : Option ℚ
  totalDistance : ℚ
  distanceTraveled : ℚ
  isActive : Bool
  routeInfo : Option RouteInfo
  speedHistory : List SpeedSample
  lastUpdateTime : Option ℚ
deriving DecidableEq, Repr

/-- Observable outputs of the engine: the `onProgressUpdate` callback payload
(progress.js 1370-1377), the `onTripComplete` callback (1995-1997), the
next-stop progress bar value rendered by `updateNextStopProgress`
(1578-1579), and the next-stop-reached signal (1583-1585). -/
inductive Event where
  | progressUpdate (progressPercentage distanceTraveled remainingDistance totalDistance : ℚ)
  | tripComplete (finalState : TripData)
  | nextStopBar (pct : ℚ)
  | nextStopReached
deriving DecidableEq, Repr

/-- The clamp `Math.min(100, Math.max(0, x))` used for every percentage. -/
def clampPct (x : ℚ) : ℚ := min 100 (max 0 x)

/-- The speed-sample block of `updateProgress` (progress.js 1317-1338):
if a previous update exists (`lastUpdateTime` truthy) and time advanced,
and the displacement since it exceeds 1 m, compute the instantaneous speed
and append it when it lies in the plausible band (0, 200) km/h, evicting
the oldest sample when the history exceeds 10 entries. -/
def appendSpeedSample (td : TripData) (now distanceFromOrigin : ℚ) : List SpeedSample :=
  match td.lastUpdateTime with
  | none => td.speedHistory
  | some t =>
    let timeSince := (now - t) / 1000
    if t ≠ 0 ∧ 0 < timeSince then
      let delta := distanceFromOrigin - td.distanceTraveled
      if 1/1000 < delta then
        let currentSpeed := delta / timeSince * 3600
        if 0 < currentSpeed ∧ currentSpeed < 200 then
          let h := td.speedHistory ++ [⟨currentSpeed, now⟩]
          if 10 < h.length then h.tail else h
        else td.speedHistory
      else td.speedHistory
    else td.speedHistory

/-- Method `updateNextStopProgress` (progress.js 1471-1586), reduced to its computed
values: `none` when there is no next stop (the bar is hidden) or when the
origin is missing; otherwise `some (pct, reached)` where `pct` is the value
rendered into the bar and `reached` records whether the 50 m next-stop
threshold fired.  When no sync position is available the bar shows 0 %
(progress.js 1514-1525).  `sync` is `getCurrentPositionSync()`. -/
def updateNextStopProgress (dist : Coord → Coord → ℚ) (td : TripData)
    (sync : Option Coord) : Option (ℚ × Bool) :=
  match td.nextStop with
  | none => none
  | some ns =>
    match td.origin with
    | none => none
    | some o =>
      let isUpdatedNextStop : Bool :=
        match td.nextStopOrigin with
        | some nso => decide (nso.lat ≠ o.lat) || decide (nso.lng ≠ o.lng)
        | none => false
      let nextStopStartPoint : Coord :=
        if isUpdatedNextStop then td.nextStopOrigin.getD o else o
      let totalDistanceToNextStop : ℚ :=
        match td.nextStopRouteInfo with
        | some ri => ri.distance
        | none => dist nextStopStartPoint ns
      match sync with
      | none => some (0, false)
      | some currentPosition =>
        if isUpdatedNextStop then
          let distanceFromNewStart := dist (td.nextStopOrigin.getD o) currentPosition
          let distanceToNextStop := dist currentPosition ns
          let pct := clampPct (distanceFromNewStart / totalDistanceToNextStop * 100)
          some (pct, decide (distanceToNextStop ≤ 1/20))
        else
          let distanceToNextStop := dist currentPosition ns
          let pct := clampPct ((totalDistanceToNextStop - distanceToNextStop)
                                / totalDistanceToNextStop * 100)
          some (pct, decide (distanceToNextStop ≤ 1/20))

/-- Result of one engine step: the new `tripData`, whether the position
subscription is still running, and the events emitted during the step. -/
structure StepResult where
  state : TripData
  tracking : Bool
  events : List Event
deriving DecidableEq, Repr

/-- The events produced by one `updateNextStopProgress` rendering: the bar
value and, when the 50 m threshold fired, the next-stop-reached signal. -/
def nsBarEvents (dist : Coord → Coord → ℚ) (td : TripData) (sync : Option Coord) :
    List Event :=
  match updateNextStopProgress dist td sync with
  | some (pct, reached) =>
    Event.nextStopBar pct :: (if reached then [Event.nextStopReached] else [])
  | none => []

/-- Method `updateProgress(currentPosition)` (progress.js 1297-1378).  Early-returns
when inactive or the state is incomplete.  Computes the straight-line distance
from the origin, updates the speed history, sets
`distanceTraveled`/`lastUpdateTime`, computes the clamped percentage (0 when
fewer than 2 speed samples), derives `remainingDistance = totalDistance -
distanceTraveled`, completes the trip at the 50 m threshold (`completeTrip`,
progress.js 1991-2001: `isActive := false`, stop tracking, fire
`onTripComplete`), renders the next-stop bar via `updateDisplay`, and fires
`onProgressUpdate`.  The distance to the destination computed at progress.js
1312-1315 is unused by this variant and is omitted. -/
def updateProgress (dist : Coord → Coord → ℚ) (now : ℚ) (sync : Option Coord)
    (currentPosition : Coord) (td : TripData) (tracking : Bool) : StepResult :=
  match td.origin, td.destination with
  | some origin, some _destination =>
    if td.isActive then
      let distanceFromOrigin := dist origin currentPosition
      let speedHistory := appendSpeedSample td now distanceFromOrigin
      let td1 : TripData := { td with distanceTraveled := distanceFromOrigin,
                                      lastUpdateTime := some now,
                                      speedHistory := speedHistory }
      let progressPercentage : ℚ :=
        if 2 ≤ speedHistory.length then
          clampPct (distanceFromOrigin / td.totalDistance * 100)
        else 0
      let remainingDistance := td.totalDistance - distanceFromOrigin
      let completed := remainingDistance ≤ 1/20
      let td2 := if completed then { td1 with isActive := false } else td1
      let tracking2 := if completed then false else tracking
      let completionEvents := if completed then [Event.tripComplete td2] else []
      ⟨td2, tracking2, completionEvents ++ nsBarEvents dist td2 sync ++
        [Event.progressUpdate progressPercentage distanceFromOrigin
          remainingDistance td.totalDistance]⟩
    else ⟨td, tracking, []⟩
  | _, _ => ⟨td, tracking, []⟩

/-- Feed a sequence of timed position fixes through `updateProgress`,
accumulating emitted events.  The continuous watch
(geolocation.js 119-130) stores each fix as the manager's current position
before invoking the callback, so the sync position equals the fix. -/
def stepFold (dist : Coord → Coord → ℚ) (acc : StepResult) (f : ℚ × Coord) : StepResult :=
  let r := updateProgress dist f.1 (some f.2) f.2 acc.state acc.tracking
  ⟨r.state, r.tracking, acc.events ++ r.events⟩

/-- Fold `stepFold` over a list of `(timestamp, position)` fixes. -/
def runFixes (dist : Coord → Coord → ℚ) (fixes : List (ℚ × Coord))
    (td : TripData) (tracking : Bool) : StepResult :=
  fixes.foldl (stepFold dist) ⟨td, tracking, []⟩

/-- Recognise an `Event.tripComplete`. -/
def isTripCompleteEvent : Event → Bool
  | .tripComplete _ => true
  | _ => false

/-- Errors are plain `Error` objects in the source; only their messages
matter to the embedding. -/
abbrev Err := String

/-- JavaScript `String.prototype.trim()`, modelled executably over the char
list (strip leading and trailing whitespace). -/
def jsTrim (s : String) : String :=
  ⟨((s.data.dropWhile Char.isWhitespace).reverse.dropWhile Char.isWhitespace).reverse⟩

/-- Environment of one `startTrip` call (progress.js 1227-1292): the results
of the awaited collaborator calls, in program order.  `position` is the first
`getCurrentPosition` (the origin), `position2` the second one fetched for the
initial display (progress.js 1282). -/
structure StartEnv where
  position : Except Err Coord
  geocode : String → Except Err Coord
  route : Except Err RouteInfo
  position2 : Except Err Coord
  now : ℚ

/-- Result of `startTrip`: the promise outcome, the engine state after the
call (state is already mutated when the second position fetch fails), and
whether tracking is running. -/
structure StartResult where
  result : Except Err TripData
  state : TripData
  tracking : Bool

/-- Method `startTrip(destinationAddress, nextStopAddress)` (progress.js 1227-1292).
Resolves the origin, geocodes the destination, geocodes the next stop when
the address is non-blank (progress.js 1240-1244; a failure here propagates
through the catch and rethrows), fetches the route, then initialises
`tripData` with `totalDistance = routeInfo.distance`, starts tracking and
fetches a position for the initial display.  The `tripData` literal has no
`nextStopRouteInfo` field, so it is `none`. -/
def startTrip (env : StartEnv) (destinationAddress : String)
    (nextStopAddress : Option String) (td : TripData) (tracking : Bool) : StartResult :=
  match env.position with
  | .error e => ⟨.error e, td, tracking⟩
  | .ok origin =>
    match env.geocode destinationAddress with
    | .error e => ⟨.error e, td, tracking⟩
    | .ok destination =>
      let nextStopRes : Except Err (Option Coord) :=
        match nextStopAddress with
        | some a => if jsTrim a ≠ "" then (env.geocode a).map some else .ok none
        | none => .ok none
      match nextStopRes with
      | .error e => ⟨.error e, td, tracking⟩
      | .ok nextStop =>
        match env.route with
        | .error e => ⟨.error e, td, tracking⟩
        | .ok routeInfo =>
          let td1 : TripData := {
            origin := some origin
            destination := some destination
            nextStop := nextStop
            nextStopOrigin := if nextStop.isSome then some origin else none
            nextStopRouteInfo := none
            startTime := some env.now
            totalDistance := routeInfo.distance
            distanceTraveled := 0
            isActive := true
            routeInfo := some routeInfo
            speedHistory := []
            lastUpdateTime := some env.now }
          match env.position2 with
          | .error e => ⟨.error e, td1, true⟩
          | .ok _ => ⟨.ok td1, td1, true⟩

/-- Environment of one `updateNextStop` call (progress.js 2015-2079): results
of the awaited `getCurrentPosition`, `geocodeAddress` and `getRouteInfo`
calls, and the time of the trailing `updateProgress`. -/
structure UNSEnv where
  position : Except Err Coord
  geocode : Except Err Coord
  route : Except Err RouteInfo
  now : ℚ

/-- Result of `updateNextStop`. -/
structure UNSResult where
  result : Except Err TripData
  state : TripData
  tracking : Bool
  events : List Event

/-- Method `updateNextStop(nextStopAddress)` (progress.js 2015-2079).  Throws when no
trip is active; otherwise awaits the current position, the geocoded stop and
the new route — any failure rethrows before `tripData` is touched — then
writes `nextStop`, `nextStopOrigin := currentPosition`,
`nextStopRouteInfo`, re-renders the next-stop bar, and finally runs
`updateProgress` at the sync position (progress.js 2068-2071; the sync
position equals the position fetched at the start of the call, which
`getCurrentPosition` stored in the manager). -/
def updateNextStop (dist : Coord → Coord → ℚ) (env : UNSEnv)
    (td : TripData) (tracking : Bool) : UNSResult :=
  if td.isActive then
    match env.position with
    | .error e => ⟨.error e, td, tracking, []⟩
    | .ok currentPosition =>
      match env.geocode with
      | .error e => ⟨.error e, td, tracking, []⟩
      | .ok nextStop =>
        match env.route with
        | .error e => ⟨.error e, td, tracking, []⟩
        | .ok nextStopRouteInfo =>
          let td1 := { td with nextStop := some nextStop,
                               nextStopOrigin := some currentPosition,
                               nextStopRouteInfo := some nextStopRouteInfo }
          let r := updateProgress dist env.now (some currentPosition)
                     currentPosition td1 tracking
          ⟨.ok r.state, r.state, r.tracking,
            nsBarEvents dist td1 (some currentPosition) ++ r.events⟩
  else ⟨.error "Geen actieve reis bezig", td, tracking, []⟩

/-- JavaScript `Math.round`: floor(x + 1/2) for the non-negative values used here. -/
def jsRound (x : ℚ) : ℚ := (⌊x + 1/2⌋ : ℤ)

/-- Method `getExpectedSpeed(roadTypes)` (geolocation.js 1123-1138): the road-type
weighted speed, 80 km/h when no histogram is available. -/
def getExpectedSpeed (roadTypes : Option RoadTypes) : ℚ :=
  match roadTypes with
  | none => 80
  | some rt =>
    let total := rt.highway + rt.primary + rt.secondary + rt.residential
    if total = 0 then 80
    else jsRound ((rt.highway * 120 + rt.primary * 90 + rt.secondary * 75
                    + rt.residential * 40) / total)

/-- The recency-weighted average of `calculateTimeRemaining`
(progress.js 1780-1791): weight `index + 1` over the filtered recent speeds. -/
def weightedAverageSpeed (speeds : List ℚ) : ℚ :=
  let withW := (List.range speeds.length).zip speeds
  let weightedSum := (withW.map (fun p => p.2 * ((p.1 : ℚ) + 1))).sum
  let totalWeight := (withW.map (fun p => ((p.1 : ℚ) + 1))).sum
  weightedSum / totalWeight

/-- The expected-speed computation of the speed-based fallback branch of
`calculateTimeRemaining` (progress.js 1766-1810): start from 80, use the
road-type speed when a histogram exists, blend 40/60 with the recency-weighted
average of samples from the last 5 minutes, and — only when the result is
still exactly 80 — fall back to the plain trip-average speed if it lies in
[20, 120] km/h. -/
def expectedSpeedFallback (td : TripData) (now : ℚ) : ℚ :=
  let hasRoadTypes : Bool :=
    match td.routeInfo with
    | some ri => ri.roadTypes.isSome
    | none => false
  let e1 : ℚ :=
    match td.routeInfo with
    | some ri =>
      match ri.roadTypes with
      | some rt => getExpectedSpeed (some rt)
      | none => 80
    | none => 80
  let recentSpeeds :=
    (td.speedHistory.filter (fun s => now - 300000 < s.timestamp)).map (·.speed)
  let e2 : ℚ :=
    if td.speedHistory.length ≠ 0 ∧ recentSpeeds.length ≠ 0 then
      let w := weightedAverageSpeed recentSpeeds
      if hasRoadTypes then e1 * (4/10) + w * (6/10) else w
    else e1
  if e2 = 80 ∧ 0 < td.distanceTraveled then
    let elapsedMinutes := (now - td.startTime.getD 0) / 1000 / 60
    let averageSpeed := td.distanceTraveled / (elapsedMinutes / 60)
    if 20 ≤ averageSpeed ∧ averageSpeed ≤ 120 then averageSpeed else e2
  else e2

/-- The remaining-distance sanity clamp of `calculateTimeRemaining`
(progress.js 1812-1822). -/
def sanityClamp (remainingDistance expectedSpeed : ℚ) : ℚ :=
  if 50 < remainingDistance then max expectedSpeed 80
  else if 10 < remainingDistance then max expectedSpeed 60
  else min expectedSpeed 50

/-- Outcome of `calculateTimeRemaining`: the placeholder string or the raw
minutes value from which the display string is formatted. -/
inductive TimeRemaining where
  | noEstimate
  | minutes (m : ℚ)
deriving DecidableEq, Repr

/-- Method `calculateTimeRemaining(remainingDistance)` (progress.js 1739-1842),
up to display formatting.  Returns the placeholder when `startTime` is falsy
or nothing has been traveled; takes the route-duration path when
`routeInfo.duration` is truthy (progress.js 1744-1764) — this path never
touches the expected speed — and otherwise divides the remaining distance by
the sanity-clamped fallback speed. -/
def calculateTimeRemaining (td : TripData) (now remainingDistance : ℚ) : TimeRemaining :=
  if td.startTime.getD 0 = 0 ∨ td.distanceTraveled = 0 then .noEstimate
  else
    let useRoute : Bool :=
      match td.routeInfo with
      | some ri => decide (ri.duration ≠ 0)
      | none => false
    match td.routeInfo, useRoute with
    | some ri, true =>
      let progressFrac := td.distanceTraveled / td.totalDistance
      .minutes (ri.duration - ri.duration * progressFrac)
    | _, _ =>
      let expectedSpeed := sanityClamp remainingDistance (expectedSpeedFallback td now)
      .minutes (remainingDistance / expectedSpeed * 60)

/-- Mutable fields of the `ModelRetry` instance (geolocation.js 4-10). -/
structure ModelRetry where
  maxAttempts : ℕ
  baseDelay : ℚ
  attempts : ℕ
  isWaiting : Bool
deriving DecidableEq, Repr

/-- How one `ModelRetry.execute` call ends: with the operation's value, with
the rejection thrown after the in-call 30 s wait (geolocation.js 21-27), or —
when the `while` guard is already false on entry — by returning `undefined`
without attempting anything. -/
inductive RetryOutcome (α : Type) where
  | success (a : α)
  | failedAfterWait
  | noResult
deriving DecidableEq, Repr

/-- Trace of one `execute` call: its outcome, the sleeps between attempts
(ms, in order), whether the 30 s failure wait was served, and the instance
state after the call. -/
structure RetryResult (α : Type) where
  outcome : RetryOutcome α
  delays : List ℚ
  waitedCooldown : Bool
  final : ModelRetry
deriving DecidableEq, Repr

/-- The `while (this.attempts < this.maxAttempts)` loop of
`ModelRetry.execute` (geolocation.js 12-34).  `op n` is the operation's
result on the attempt made with counter value `n` (`none` = throw).  On
success `reset()` runs; when the incremented counter reaches `maxAttempts`
the call sets `isWaiting`, sleeps 30 s, resets and throws; otherwise it
sleeps `baseDelay * 2^(attempts-1)` and retries.  `fuel` bounds the loop and
is `maxAttempts - attempts` at entry, which the loop never exceeds. -/
def executeLoop {α : Type} (mr : ModelRetry) (op : ℕ → Option α) :
    ℕ → ℕ → RetryResult α
  | attempts, 0 =>
    if attempts < mr.maxAttempts then
      match op attempts with
      | some a => ⟨.success a, [], false, { mr with attempts := 0, isWaiting := false }⟩
      | none =>
        if mr.maxAttempts ≤ attempts + 1 then
          ⟨.failedAfterWait, [], true, { mr with attempts := 0, isWaiting := false }⟩
        else ⟨.noResult, [], false, { mr with attempts := attempts + 1 }⟩
    else ⟨.noResult, [], false, mr⟩
  | attempts, fuel + 1 =>
    if attempts < mr.maxAttempts then
      match op attempts with
      | some a => ⟨.success a, [], false, { mr with attempts := 0, isWaiting := false }⟩
      | none =>
        if mr.maxAttempts ≤ attempts + 1 then
          ⟨.failedAfterWait, [], true, { mr with attempts := 0, isWaiting := false }⟩
        else
          let r := executeLoop mr op (attempts + 1) fuel
          ⟨r.outcome, mr.baseDelay * 2 ^ attempts :: r.delays, r.waitedCooldown, r.final⟩
    else ⟨.noResult, [], false, mr⟩

/-- Method `ModelRetry.execute(operation)` (geolocation.js 12-34). -/
def ModelRetry.execute {α : Type} (mr : ModelRetry) (op : ℕ → Option α) : RetryResult α :=
  executeLoop mr op mr.attempts (mr.maxAttempts - mr.attempts)

/-- A fresh instance with the default configuration
(`maxAttempts = 3`, `baseDelay = 1000`, geolocation.js 5). -/
def defaultRetry : ModelRetry := ⟨3, 1000, 0, false⟩

/-- Kinds of `showToast` notifications (app.js). -/
inductive ToastKind where
  | info
  | error
  | warning
  | success
deriving DecidableEq, Repr

/-- One `showToast(message, kind)` call. -/
structure Toast where
  kind : ToastKind
  message : String
deriving DecidableEq, Repr

/-- The `tripData` object built by `TripApp.handleStartTrip`
(app.js 204-213). -/
structure AppTrip where
  startTime : ℚ
  startLocation : Coord
  destination : Coord
  nextStop : Option Coord
  routeInfo : RouteInfo
  destinationAddress : String
  nextStopAddress : Option String
deriving DecidableEq, Repr

/-- Environment of one `TripApp.handleStartTrip` call: the permission answer
and the results of the awaited geolocation/geocoding/routing calls. -/
structure AppEnv where
  permission : Bool
  position : Except Err Coord
  geocodeDest : Except Err Coord
  geocodeNextStop : Except Err Coord
  route : Except Err RouteInfo
  now : ℚ

/-- Result of `handleStartTrip`: whether the app reached the active-trip
state (`TripApp.startTrip` sets `isActive = true`, app.js 369), the trip
data it was started with, and the toasts shown, in order. -/
structure AppStartResult where
  isActive : Bool
  trip : Option AppTrip
  toasts : List Toast
deriving DecidableEq, Repr

/-- Handler `TripApp.handleStartTrip` (app.js 152-223).  A blank destination aborts;
a denied permission aborts; position, destination-geocode and route failures
reach the outer catch and abort with an error toast; a next-stop geocode
failure is caught locally (app.js 188-192), shows a warning and continues
with a null next stop; on success `TripApp.startTrip` runs and the app
becomes active. -/
def handleStartTrip (env : AppEnv) (destinationInput nextStopInput : String) :
    AppStartResult :=
  let destination := jsTrim destinationInput
  let nextStop := jsTrim nextStopInput
  if destination = "" then
    ⟨false, none, [⟨.error, "Voer een eindbestemming in"⟩]⟩
  else
    let t1 : List Toast := [⟨.info, "Locatie toegang aanvragen..."⟩]
    if env.permission = false then
      ⟨false, none, t1 ++ [⟨.error, "Locatie toegang is vereist voor deze app"⟩]⟩
    else
      let t2 := t1 ++ [⟨.info, "Huidige locatie ophalen..."⟩]
      match env.position with
      | .error e => ⟨false, none, t2 ++ [⟨.error, "Fout bij starten reis: " ++ e⟩]⟩
      | .ok currentPosition =>
        let t3 := t2 ++ [⟨.info, "Bestemming zoeken..."⟩]
        match env.geocodeDest with
        | .error e => ⟨false, none, t3 ++ [⟨.error, "Fout bij starten reis: " ++ e⟩]⟩
        | .ok destinationCoords =>
          let nsStep : Option Coord × List Toast :=
            if nextStop ≠ "" then
              match env.geocodeNextStop with
              | .ok c => (some c, t3 ++ [⟨.info, "Tussenstop zoeken..."⟩])
              | .error _ =>
                (none, t3 ++ [⟨.info, "Tussenstop zoeken..."⟩,
                              ⟨.warning, "Tussenstop niet gevonden, wordt overgeslagen"⟩])
            else (none, t3)
          let t4 := nsStep.2 ++ [⟨.info, "Route berekenen..."⟩]
          match env.route with
          | .error e => ⟨false, none, t4 ++ [⟨.error, "Fout bij starten reis: " ++ e⟩]⟩
          | .ok routeInfo =>
            ⟨true,
             some ⟨env.now, currentPosition, destinationCoords, nsStep.1, routeInfo,
                   destination, if nextStop = "" then none else some nextStop⟩,
             t4 ++ [⟨.success, "Reis gestart! 🚗"⟩]⟩

/-! ## Concrete fixtures shared by witnesses and counterexamples -/

/-- A degenerate distance table used to instantiate the abstract distance
function in witnesses: 0 between identical points, otherwise 5 km. -/
def flatDist (a b : Coord) : ℚ := if a = b then 0 else 5

/-- A freshly started trip of 100 km used as a concrete state. -/
def tdBase : TripData :=
  { origin := some ⟨0, 0⟩, destination := some ⟨1, 1⟩, nextStop := none,
    nextStopOrigin := none, nextStopRouteInfo := none,
    startTime := some 1000, totalDistance := 100, distanceTraveled := 0,
    isActive := true, routeInfo := some ⟨100, 80, 75, none⟩,
    speedHistory := [], lastUpdateTime := some 1000 }

/-! ## Helper lemmas -/

theorem clampPct_nonneg (x : ℚ) : 0 ≤ clampPct x :=
  le_min (by norm_num) (le_max_left 0 x)

theorem clampPct_le_100 (x : ℚ) : clampPct x ≤ 100 :=
  min_le_left _ _

theorem nsBarEvents_no_progressUpdate (dist : Coord → Coord → ℚ) (td : TripData)
    (sync : Option Coord) (pct dt rd tot : ℚ) :
    Event.progressUpdate pct dt rd tot ∉ nsBarEvents dist td sync := by
  unfold nsBarEvents
  rcases h : updateNextStopProgress dist td sync with _ | ⟨p, r⟩
  · simp
  · cases r <;> simp

theorem nsBarEvents_filter_tripComplete (dist : Coord → Coord → ℚ) (td : TripData)
    (sync : Option Coord) :
    (nsBarEvents dist td sync).filter isTripCompleteEvent = [] := by
  unfold nsBarEvents
  rcases h : updateNextStopProgress dist td sync with _ | ⟨p, r⟩
  · simp
  · cases r <;> simp [isTripCompleteEvent]

theorem updateProgress_inactive (dist : Coord → Coord → ℚ) (now : ℚ)
    (sync : Option Coord) (pos : Coord) (td : TripData) (tracking : Bool)
    (hA : td.isActive = false) :
    updateProgress dist now sync pos td tracking = ⟨td, tracking, []⟩ := by
  unfold updateProgress
  split
  · simp [hA]
  · rfl

theorem foldl_stepFold_inactive (dist : Coord → Coord → ℚ) (fixes : List (ℚ × Coord)) :
    ∀ acc : StepResult, acc.state.isActive = false →
      fixes.foldl (stepFold dist) acc = acc := by
  induction fixes with
  | nil => intro acc _; rfl
  | cons f fs ih =>
    intro acc h
    rw [List.foldl_cons]
    have hstep : stepFold dist acc f = acc := by
      unfold stepFold
      rw [updateProgress_inactive _ _ _ _ _ _ h]
      simp
    rw [hstep]
    exact ih acc h

theorem runFixes_inactive (dist : Coord → Coord → ℚ) (fixes : List (ℚ × Coord))
    (td : TripData) (tracking : Bool) (hA : td.isActive = false) :
    runFixes dist fixes td tracking = ⟨td, tracking, []⟩ := by
  unfold runFixes
  exact foldl_stepFold_inactive dist fixes ⟨td, tracking, []⟩ hA

theorem updateProgress_active (dist : Coord → Coord → ℚ) (now : ℚ) (sync : Option Coord)
    (pos : Coord) (td : TripData) (tracking : Bool) (o dd : Coord)
    (ho : td.origin = some o) (hd : td.destination = some dd) (hA : td.isActive = true) :
    updateProgress dist now sync pos td tracking =
      (let distanceFromOrigin := dist o pos
       let speedHistory := appendSpeedSample td now distanceFromOrigin
       let td1 : TripData := { td with distanceTraveled := distanceFromOrigin,
                                       lastUpdateTime := some now,
                                       speedHistory := speedHistory }
       let progressPercentage : ℚ :=
         if 2 ≤ speedHistory.length then
           clampPct (distanceFromOrigin / td.totalDistance * 100)
         else 0
       let remainingDistance := td.totalDistance - distanceFromOrigin
       let completed := remainingDistance ≤ 1/20
       let td2 := if completed then { td1 with isActive := false } else td1
       let tracking2 := if completed then false else tracking
       let completionEvents := if completed then [Event.tripComplete td2] else []
       ⟨td2, tracking2, completionEvents ++ nsBarEvents dist td2 sync ++
         [Event.progressUpdate progressPercentage distanceFromOrigin
           remainingDistance td.totalDistance]⟩) := by
  unfold updateProgress
  rw [ho, hd, hA]
  rfl

theorem progressUpdate_step_bounds (dist : Coord → Coord → ℚ) (now : ℚ)
    (sync : Option Coord) (pos : Coord) (td : TripData) (tracking : Bool)
    (pct dt rd tot : ℚ)
    (h : Event.progressUpdate pct dt rd tot ∈
          (updateProgress dist now sync pos td tracking).events) :
    (0 ≤ pct ∧ pct ≤ 100) ∧ (pct = 0 ∨ pct = clampPct (dt / tot * 100)) := by
  rcases ho : td.origin with _ | o
  · unfold updateProgress at h
    rw [ho] at h
    simp at h
  rcases hd : td.destination with _ | dd
  · unfold updateProgress at h
    rw [ho, hd] at h
    simp at h
  by_cases hA : td.isActive = true
  case neg =>
    rw [updateProgress_inactive dist now sync pos td tracking
      (by simpa using hA)] at h
    simp at h
  rw [updateProgress_active dist now sync pos td tracking o dd ho hd hA] at h
  simp only [List.mem_append, List.mem_singleton] at h
  rcases h with (hc | hns) | hp
  · split at hc <;> simp at hc
  · exact absurd hns (nsBarEvents_no_progressUpdate _ _ _ _ _ _ _)
  · simp only [Event.progressUpdate.injEq] at hp
    obtain ⟨h1, h2, _, h4⟩ := hp
    subst h1 h2 h4
    split
    · exact ⟨⟨clampPct_nonneg _, clampPct_le_100 _⟩, Or.inr rfl⟩
    · exact ⟨⟨le_refl 0, by norm_num⟩, Or.inl rfl⟩

theorem mem_foldl_stepFold_events (dist : Coord → Coord → ℚ) :
    ∀ (fixes : List (ℚ × Coord)) (acc : StepResult) (e : Event),
      e ∈ (fixes.foldl (stepFold dist) acc).events →
      e ∈ acc.events ∨
        ∃ now pos td tr, e ∈ (updateProgress dist now (some pos) pos td tr).events := by
  intro fixes
  induction fixes with
  | nil => intro acc e h; exact .inl h
  | cons f fs ih =>
    intro acc e h
    rw [List.foldl_cons] at h
    rcases ih (stepFold dist acc f) e h with h' | h'
    · unfold stepFold at h'
      simp only [List.mem_append] at h'
      rcases h' with h'' | h''
      · exact .inl h''
      · exact .inr ⟨f.1, f.2, acc.state, acc.tracking, h''⟩
    · exact .inr h'

/-- C2: for every sequence of position fixes fed to `updateProgress` during a
trip — including positions arbitrarily far from the route — the
`progressPercentage` carried by every emitted `progressUpdate` event lies in
[0, 100], and it is either the below-two-samples value 0 or
`clamp(0,100, distanceTraveled / totalDistance × 100)` (which equals
`(totalDistance − remainingDistance)/totalDistance × 100` since the emitted
`remainingDistance` is `totalDistance − distanceTraveled`). -/
theorem runFixes_progressPercentage_in_range
    (dist : Coord → Coord → ℚ) (fixes : List (ℚ × Coord)) (td : TripData)
    (tracking : Bool) (pct dt rd tot : ℚ)
    (h : Event.progressUpdate pct dt rd tot ∈ (runFixes dist fixes td tracking).events) :
    (0 ≤ pct ∧ pct ≤ 100) ∧ (pct = 0 ∨ pct = clampPct (dt / tot * 100)) := by
  unfold runFixes at h
  rcases mem_foldl_stepFold_events dist fixes ⟨td, tracking, []⟩ _ h with h' | ⟨now, pos, td', tr', h'⟩
  · simp at h'
  · exact progressUpdate_step_bounds dist now (some pos) pos td' tr' pct dt rd tot h'

/-- Witness for C2: the event emitted by a concrete single-fix run is in
range. -/
theorem runFixes_progressPercentage_in_range_witness :
    ((0:ℚ) ≤ 0 ∧ (0:ℚ) ≤ 100) ∧ ((0:ℚ) = 0 ∨ (0:ℚ) = clampPct (5 / 100 * 100)) :=
  runFixes_progressPercentage_in_range flatDist [(2000, ⟨2, 2⟩)] tdBase true
    0 5 95 100 (by
      simp only [runFixes, stepFold, List.foldl_cons, List.foldl_nil]
      norm_num [updateProgress, appendSpeedSample, nsBarEvents, updateNextStopProgress,
        clampPct, tdBase, flatDist])

/-- C10: whenever fewer than 2 SpeedSamples have been recorded (after the
speed-sample step of the fix being processed), `updateProgress` still emits a
`progressUpdate` whose `progressPercentage` is 0 while its
`remainingDistance` equals `totalDistance` minus the (possibly nonzero)
distance traveled from the origin — so 0 % can be shown while the remaining
distance has already decreased, as on the concrete first fix 5 km into a
fresh 100 km trip, which emits 0 % with remaining 95 < 100. -/
theorem updateProgress_early_fix_zero_percent
    (dist : Coord → Coord → ℚ) (now : ℚ) (sync : Option Coord) (pos : Coord)
    (td : TripData) (tracking : Bool) (o dd : Coord)
    (ho : td.origin = some o) (hd : td.destination = some dd) (hA : td.isActive = true)
    (hlen : (appendSpeedSample td now (dist o pos)).length < 2) :
    Event.progressUpdate 0 (dist o pos) (td.totalDistance - dist o pos) td.totalDistance
      ∈ (updateProgress dist now sync pos td tracking).events ∧
    Event.progressUpdate 0 5 95 100
      ∈ (updateProgress flatDist 2000 (some ⟨2, 2⟩) ⟨2, 2⟩ tdBase true).events ∧
    tdBase.totalDistance - flatDist ⟨0, 0⟩ ⟨2, 2⟩ < tdBase.totalDistance := by
  refine ⟨?_, ?_, ?_⟩
  · rw [updateProgress_active dist now sync pos td tracking o dd ho hd hA]
    have hpct : (if 2 ≤ (appendSpeedSample td now (dist o pos)).length then
        clampPct (dist o pos / td.totalDistance * 100) else 0) = (0:ℚ) :=
      if_neg (by omega)
    simp only [hpct]
    simp
  · norm_num [updateProgress, appendSpeedSample, nsBarEvents, updateNextStopProgress,
      clampPct, tdBase, flatDist]
  · norm_num [tdBase, flatDist]

/-- Witness for C10 at a concrete early fix of a fresh trip. -/
theorem updateProgress_early_fix_zero_percent_witness :
    Event.progressUpdate 0 (flatDist ⟨0, 0⟩ ⟨2, 2⟩)
        (tdBase.totalDistance - flatDist ⟨0, 0⟩ ⟨2, 2⟩) tdBase.totalDistance
      ∈ (updateProgress flatDist 2000 (some ⟨2, 2⟩) ⟨2, 2⟩ tdBase true).events ∧
    Event.progressUpdate 0 5 95 100
      ∈ (updateProgress flatDist 2000 (some ⟨2, 2⟩) ⟨2, 2⟩ tdBase true).events ∧
    tdBase.totalDistance - flatDist ⟨0, 0⟩ ⟨2, 2⟩ < tdBase.totalDistance :=
  updateProgress_early_fix_zero_percent flatDist 2000 (some ⟨2, 2⟩) ⟨2, 2⟩
    tdBase true ⟨0, 0⟩ ⟨1, 1⟩ rfl rfl rfl
    (by norm_num [appendSpeedSample, tdBase, flatDist])

/-- C1: on a position fix during an active trip whose remaining distance is
at most 0.05 km, the engine sets `isActive` to false, stops the position
subscription, and fires `tripComplete` exactly once; any sequence of position
fixes processed after that completion produces no events at all — in
particular no further `progressUpdate`. -/
theorem updateProgress_arrival_completes_once
    (dist : Coord → Coord → ℚ) (now : ℚ) (sync : Option Coord) (pos : Coord)
    (td : TripData) (tracking : Bool) (o dd : Coord)
    (ho : td.origin = some o) (hd : td.destination = some dd) (hA : td.isActive = true)
    (hnear : td.totalDistance - dist o pos ≤ 1/20) :
    (updateProgress dist now sync pos td tracking).state.isActive = false ∧
    (updateProgress dist now sync pos td tracking).tracking = false ∧
    ((updateProgress dist now sync pos td tracking).events.filter
        isTripCompleteEvent).length = 1 ∧
    ∀ fixes : List (ℚ × Coord),
      (runFixes dist fixes (updateProgress dist now sync pos td tracking).state
        (updateProgress dist now sync pos td tracking).tracking).events = [] := by
  rw [updateProgress_active dist now sync pos td tracking o dd ho hd hA]
  simp only [hnear, if_true]
  refine ⟨trivial, trivial, ?_, ?_⟩
  · simp [List.filter_append, nsBarEvents_filter_tripComplete, isTripCompleteEvent]
  · intro fixes
    rw [runFixes_inactive]
    rfl

/-- Witness for C1: a concrete arriving fix on a 5 km trip. -/
theorem updateProgress_arrival_completes_once_witness :
    (updateProgress flatDist 2000 (some ⟨2, 2⟩) ⟨2, 2⟩
        { tdBase with totalDistance := 5 } true).state.isActive = false ∧
    (updateProgress flatDist 2000 (some ⟨2, 2⟩) ⟨2, 2⟩
        { tdBase with totalDistance := 5 } true).tracking = false ∧
    ((updateProgress flatDist 2000 (some ⟨2, 2⟩) ⟨2, 2⟩
        { tdBase with totalDistance := 5 } true).events.filter
        isTripCompleteEvent).length = 1 ∧
    (runFixes flatDist [(3000, ⟨3, 3⟩)]
      (updateProgress flatDist 2000 (some ⟨2, 2⟩) ⟨2, 2⟩
        { tdBase with totalDistance := 5 } true).state
      (updateProgress flatDist 2000 (some ⟨2, 2⟩) ⟨2, 2⟩
        { tdBase with totalDistance := 5 } true).tracking).events = [] := by
  have h := updateProgress_arrival_completes_once flatDist 2000 (some ⟨2, 2⟩) ⟨2, 2⟩
    { tdBase with totalDistance := 5 } true ⟨0, 0⟩ ⟨1, 1⟩ rfl rfl rfl
    (by norm_num [flatDist, tdBase])
  exact ⟨h.1, h.2.1, h.2.2.1, h.2.2.2 [(3000, ⟨3, 3⟩)]⟩

/-- Origin (52.0, 5.0) of the concrete scenario in spec §8. -/
def scOrigin : Coord := ⟨52, 5⟩

/-- First fix (52.1, 5.0) of the concrete scenario. -/
def scFix1 : Coord := ⟨521/10, 5⟩

/-- Second fix (52.2, 5.0) of the concrete scenario. -/
def scFix2 : Coord := ⟨261/5, 5⟩

/-- Destination (52.5, 5.0) of the concrete scenario. -/
def scDest : Coord := ⟨105/2, 5⟩

/-- The freshly started 55.6 km scenario trip, with start and first update
time 1 000 000 ms. -/
def scTrip : TripData :=
  { origin := some scOrigin, destination := some scDest, nextStop := none,
    nextStopOrigin := none, nextStopRouteInfo := none,
    startTime := some 1000000, totalDistance := 278/5, distanceTraveled := 0,
    isActive := true, routeInfo := some ⟨278/5, 50, 333/5, none⟩,
    speedHistory := [], lastUpdateTime := some 1000000 }

/-- A concrete distance table realising the scenario distances: 11.1 km from
the origin to the first fix and 22.2 km to the second. -/
def scDist (a b : Coord) : ℚ :=
  if a = scOrigin ∧ b = scFix1 then 111/10
  else if a = scOrigin ∧ b = scFix2 then 111/5
  else 0

theorem updateProgress_active_speedHistory (dist : Coord → Coord → ℚ) (now : ℚ)
    (sync : Option Coord) (pos : Coord) (td : TripData) (tracking : Bool)
    (o dd : Coord) (ho : td.origin = some o) (hd : td.destination = some dd)
    (hA : td.isActive = true) :
    (updateProgress dist now sync pos td tracking).state.speedHistory
      = appendSpeedSample td now (dist o pos) := by
  rw [updateProgress_active dist now sync pos td tracking o dd ho hd hA]
  show (if td.totalDistance - dist o pos ≤ 1/20 then _ else _ : TripData).speedHistory = _
  split <;> rfl

theorem progressUpdate_nonzero_needs_samples (dist : Coord → Coord → ℚ) (now : ℚ)
    (sync : Option Coord) (pos : Coord) (td : TripData) (tracking : Bool)
    (pct dt rd tot : ℚ)
    (h : Event.progressUpdate pct dt rd tot ∈
          (updateProgress dist now sync pos td tracking).events)
    (hpct : pct ≠ 0) :
    2 ≤ (updateProgress dist now sync pos td tracking).state.speedHistory.length := by
  rcases ho : td.origin with _ | o
  · unfold updateProgress at h
    rw [ho] at h
    simp at h
  rcases hd : td.destination with _ | dd
  · unfold updateProgress at h
    rw [ho, hd] at h
    simp at h
  by_cases hA : td.isActive = true
  case neg =>
    rw [updateProgress_inactive dist now sync pos td tracking
      (by simpa using hA)] at h
    simp at h
  rw [updateProgress_active_speedHistory dist now sync pos td tracking o dd ho hd hA]
  rw [updateProgress_active dist now sync pos td tracking o dd ho hd hA] at h
  simp only [List.mem_append, List.mem_singleton] at h
  rcases h with (hc | hns) | hp
  · split at hc <;> simp at hc
  · exact absurd hns (nsBarEvents_no_progressUpdate _ _ _ _ _ _ _)
  · simp only [Event.progressUpdate.injEq] at hp
    obtain ⟨h1, _, _, _⟩ := hp
    by_cases hlen : 2 ≤ (appendSpeedSample td now (dist o pos)).length
    · exact hlen
    · rw [if_neg hlen] at h1
      exact absurd h1 hpct

/-- C3: for the 55.6 km scenario trip whose first two fixes are 11.1 km and
60 s apart, each implied speed is 666 km/h, outside the 0–200 km/h band, so
no SpeedSample is appended and both emitted progress percentages are 0; in
general an emitted nonzero percentage requires at least 2 recorded
SpeedSamples. -/
theorem speed_rejection_keeps_progress_zero (dist : Coord → Coord → ℚ)
    (h1 : dist scOrigin scFix1 = 111/10) (h2 : dist scOrigin scFix2 = 111/5) :
    ((runFixes dist [(1060000, scFix1), (1120000, scFix2)] scTrip
        true).state.speedHistory = [] ∧
     (runFixes dist [(1060000, scFix1), (1120000, scFix2)] scTrip true).events =
       [Event.progressUpdate 0 (111/10) (89/2) (278/5),
        Event.progressUpdate 0 (111/5) (167/5) (278/5)]) ∧
    ∀ (d : Coord → Coord → ℚ) (now : ℚ) (sync : Option Coord) (pos : Coord)
      (td : TripData) (tracking : Bool) (pct dt rd tot : ℚ),
      Event.progressUpdate pct dt rd tot ∈
        (updateProgress d now sync pos td tracking).events →
      pct ≠ 0 →
      2 ≤ (updateProgress d now sync pos td tracking).state.speedHistory.length := by
  refine ⟨⟨?_, ?_⟩, ?_⟩
  · simp only [runFixes, stepFold, List.foldl_cons, List.foldl_nil]
    norm_num [updateProgress, appendSpeedSample, nsBarEvents, updateNextStopProgress,
      clampPct, scTrip, h1, h2]
  · simp only [runFixes, stepFold, List.foldl_cons, List.foldl_nil]
    norm_num [updateProgress, appendSpeedSample, nsBarEvents, updateNextStopProgress,
      clampPct, scTrip, h1, h2]
  · intro d now sync pos td tracking pct dt rd tot h hpct
    exact progressUpdate_nonzero_needs_samples d now sync pos td tracking
      pct dt rd tot h hpct

/-- A trip that already has two recorded speed samples, used to exercise the
nonzero-percentage case. -/
def tdTwoSamples : TripData :=
  { tdBase with speedHistory := [⟨50, 900⟩, ⟨60, 950⟩] }

/-- Witness for C3: the scenario run under the concrete distance table, and
the at-least-2-samples consequence at a fix that emits 5 %. -/
theorem speed_rejection_keeps_progress_zero_witness :
    ((runFixes scDist [(1060000, scFix1), (1120000, scFix2)] scTrip
        true).state.speedHistory = [] ∧
     (runFixes scDist [(1060000, scFix1), (1120000, scFix2)] scTrip true).events =
       [Event.progressUpdate 0 (111/10) (89/2) (278/5),
        Event.progressUpdate 0 (111/5) (167/5) (278/5)]) ∧
    2 ≤ (updateProgress flatDist 2000 (some ⟨2, 2⟩) ⟨2, 2⟩ tdTwoSamples
          true).state.speedHistory.length := by
  have h := speed_rejection_keeps_progress_zero scDist
    (by norm_num [scDist, scOrigin, scFix1, scFix2])
    (by norm_num [scDist, scOrigin, scFix1, scFix2])
  refine ⟨h.1, ?_⟩
  refine h.2 flatDist 2000 (some ⟨2, 2⟩) ⟨2, 2⟩ tdTwoSamples true 5 5 95 100 ?_ (by norm_num)
  norm_num [updateProgress, appendSpeedSample, nsBarEvents, updateNextStopProgress,
    clampPct, tdTwoSamples, tdBase, flatDist]

theorem updateProgress_incomplete (dist : Coord → Coord → ℚ) (now : ℚ)
    (sync : Option Coord) (pos : Coord) (td : TripData) (tracking : Bool)
    (h : td.origin = none ∨ td.destination = none) :
    updateProgress dist now sync pos td tracking = ⟨td, tracking, []⟩ := by
  unfold updateProgress
  rcases h with h | h
  · rw [h]
  · rw [h]
    rcases ho : td.origin with _ | o <;> rfl

theorem updateProgress_active_state (dist : Coord → Coord → ℚ) (now : ℚ)
    (sync : Option Coord) (pos : Coord) (td : TripData) (tracking : Bool)
    (o dd : Coord) (ho : td.origin = some o) (hd : td.destination = some dd)
    (hA : td.isActive = true) :
    (updateProgress dist now sync pos td tracking).state =
      (if td.totalDistance - dist o pos ≤ 1/20 then
        { td with distanceTraveled := dist o pos, lastUpdateTime := some now,
                  speedHistory := appendSpeedSample td now (dist o pos),
                  isActive := false }
      else
        { td with distanceTraveled := dist o pos, lastUpdateTime := some now,
                  speedHistory := appendSpeedSample td now (dist o pos) }) := by
  rw [updateProgress_active dist now sync pos td tracking o dd ho hd hA]

theorem updateProgress_frame (dist : Coord → Coord → ℚ) (now : ℚ)
    (sync : Option Coord) (pos : Coord) (td : TripData) (tracking : Bool) :
    (updateProgress dist now sync pos td tracking).state.origin = td.origin ∧
    (updateProgress dist now sync pos td tracking).state.destination = td.destination ∧
    (updateProgress dist now sync pos td tracking).state.nextStop = td.nextStop ∧
    (updateProgress dist now sync pos td tracking).state.nextStopOrigin
      = td.nextStopOrigin ∧
    (updateProgress dist now sync pos td tracking).state.nextStopRouteInfo
      = td.nextStopRouteInfo ∧
    (updateProgress dist now sync pos td tracking).state.startTime = td.startTime ∧
    (updateProgress dist now sync pos td tracking).state.totalDistance
      = td.totalDistance ∧
    (updateProgress dist now sync pos td tracking).state.routeInfo = td.routeInfo := by
  by_cases ho : td.origin = none
  · rw [updateProgress_incomplete dist now sync pos td tracking (Or.inl ho)]
    exact ⟨rfl, rfl, rfl, rfl, rfl, rfl, rfl, rfl⟩
  by_cases hd : td.destination = none
  · rw [updateProgress_incomplete dist now sync pos td tracking (Or.inr hd)]
    exact ⟨rfl, rfl, rfl, rfl, rfl, rfl, rfl, rfl⟩
  by_cases hA : td.isActive = true
  case neg =>
    rw [updateProgress_inactive dist now sync pos td tracking (by simpa using hA)]
    exact ⟨rfl, rfl, rfl, rfl, rfl, rfl, rfl, rfl⟩
  obtain ⟨o, ho'⟩ := Option.ne_none_iff_exists'.mp ho
  obtain ⟨dd, hd'⟩ := Option.ne_none_iff_exists'.mp hd
  rw [updateProgress_active_state dist now sync pos td tracking o dd ho' hd' hA]
  split <;> exact ⟨rfl, rfl, rfl, rfl, rfl, rfl, rfl, rfl⟩

theorem updateProgress_far_active (dist : Coord → Coord → ℚ) (now : ℚ)
    (sync : Option Coord) (pos : Coord) (td : TripData) (tracking : Bool)
    (o dd : Coord) (ho : td.origin = some o) (hd : td.destination = some dd)
    (hA : td.isActive = true)
    (hfar : ¬ td.totalDistance - dist o pos ≤ 1/20) :
    (updateProgress dist now sync pos td tracking).state.isActive = true ∧
    (updateProgress dist now sync pos td tracking).tracking = tracking := by
  constructor
  · rw [updateProgress_active_state dist now sync pos td tracking o dd ho hd hA]
    rw [if_neg hfar]
    exact hA
  · rw [updateProgress_active dist now sync pos td tracking o dd ho hd hA]
    simp only [if_neg hfar]

/-- C5: `updateNextStop` is atomic on failure: when resolving the current
position, geocoding the new address, or computing the new route fails (and
also when no trip is active), the call rejects with an error, the pre-call
state — in particular `nextStop`, `nextStopOrigin` and `nextStopRouteInfo` —
is left unchanged, and no events are emitted. -/
theorem updateNextStop_atomic_on_failure (dist : Coord → Coord → ℚ)
    (env : UNSEnv) (td : TripData) (tracking : Bool)
    (hfail : (∃ e, env.position = .error e) ∨ (∃ e, env.geocode = .error e) ∨
             (∃ e, env.route = .error e)) :
    (∃ e, (updateNextStop dist env td tracking).result = .error e) ∧
    (updateNextStop dist env td tracking).state = td ∧
    (updateNextStop dist env td tracking).state.nextStop = td.nextStop ∧
    (updateNextStop dist env td tracking).state.nextStopOrigin = td.nextStopOrigin ∧
    (updateNextStop dist env td tracking).state.nextStopRouteInfo
      = td.nextStopRouteInfo ∧
    (updateNextStop dist env td tracking).events = [] := by
  unfold updateNextStop
  by_cases hA : td.isActive = true
  case neg =>
    simp only [Bool.not_eq_true] at hA
    rw [hA]
    exact ⟨⟨_, rfl⟩, rfl, rfl, rfl, rfl, rfl⟩
  rw [hA]
  rcases hp : env.position with e | P
  · exact ⟨⟨e, rfl⟩, rfl, rfl, rfl, rfl, rfl⟩
  rcases hg : env.geocode with e | ns
  · exact ⟨⟨e, rfl⟩, rfl, rfl, rfl, rfl, rfl⟩
  rcases hr : env.route with e | ri
  · exact ⟨⟨e, rfl⟩, rfl, rfl, rfl, rfl, rfl⟩
  exfalso
  rcases hfail with ⟨e, he⟩ | ⟨e, he⟩ | ⟨e, he⟩
  · rw [he] at hp; exact Except.noConfusion hp
  · rw [he] at hg; exact Except.noConfusion hg
  · rw [he] at hr; exact Except.noConfusion hr

/-- An `updateNextStop` environment whose geocoding call fails. -/
def envGeoFail : UNSEnv :=
  { position := .ok ⟨2, 2⟩, geocode := .error "Address not found",
    route := .ok ⟨7, 10, 42, none⟩, now := 61000 }

/-- Witness for C5: a failing geocode leaves a concrete state untouched. -/
theorem updateNextStop_atomic_on_failure_witness :
    (∃ e, (updateNextStop flatDist envGeoFail tdBase true).result = .error e) ∧
    (updateNextStop flatDist envGeoFail tdBase true).state = tdBase ∧
    (updateNextStop flatDist envGeoFail tdBase true).state.nextStop
      = tdBase.nextStop ∧
    (updateNextStop flatDist envGeoFail tdBase true).state.nextStopOrigin
      = tdBase.nextStopOrigin ∧
    (updateNextStop flatDist envGeoFail tdBase true).state.nextStopRouteInfo
      = tdBase.nextStopRouteInfo ∧
    (updateNextStop flatDist envGeoFail tdBase true).events = [] :=
  updateNextStop_atomic_on_failure flatDist envGeoFail tdBase true
    (Or.inr (Or.inl ⟨"Address not found", rfl⟩))

theorem updateNextStop_success (dist : Coord → Coord → ℚ) (env : UNSEnv)
    (td : TripData) (tracking : Bool) (P ns : Coord) (ri : RouteInfo)
    (hA : td.isActive = true) (hp : env.position = .ok P)
    (hg : env.geocode = .ok ns) (hr : env.route = .ok ri) :
    updateNextStop dist env td tracking =
      ⟨.ok (updateProgress dist env.now (some P) P
          { td with nextStop := some ns, nextStopOrigin := some P,
                    nextStopRouteInfo := some ri } tracking).state,
       (updateProgress dist env.now (some P) P
          { td with nextStop := some ns, nextStopOrigin := some P,
                    nextStopRouteInfo := some ri } tracking).state,
       (updateProgress dist env.now (some P) P
          { td with nextStop := some ns, nextStopOrigin := some P,
                    nextStopRouteInfo := some ri } tracking).tracking,
       nsBarEvents dist
          { td with nextStop := some ns, nextStopOrigin := some P,
                    nextStopRouteInfo := some ri } (some P) ++
        (updateProgress dist env.now (some P) P
          { td with nextStop := some ns, nextStopOrigin := some P,
                    nextStopRouteInfo := some ri } tracking).events⟩ := by
  unfold updateNextStop
  rw [hA, hp, hg, hr]
  rfl

theorem updateNextStopProgress_updated_zero (dist : Coord → Coord → ℚ)
    (td : TripData) (o P ns : Coord) (ri : RouteInfo)
    (hns : td.nextStop = some ns) (ho : td.origin = some o)
    (hnso : td.nextStopOrigin = some P) (hri : td.nextStopRouteInfo = some ri)
    (hPo : P.lat ≠ o.lat ∨ P.lng ≠ o.lng) (hdist : dist P P = 0) :
    updateNextStopProgress dist td (some P)
      = some (0, decide (dist P ns ≤ 1/20)) := by
  unfold updateNextStopProgress
  rw [hns, ho, hnso, hri]
  have hupd : (decide (P.lat ≠ o.lat) || decide (P.lng ≠ o.lng)) = true := by
    rcases hPo with h | h <;> simp [h]
  simp only [hupd, if_true, Option.getD_some]
  rw [hdist]
  norm_num [clampPct]

theorem nextStopBar_mem (dist : Coord → Coord → ℚ) (td : TripData)
    (sync : Option Coord) (pct : ℚ) (b : Bool)
    (h : updateNextStopProgress dist td sync = some (pct, b)) :
    Event.nextStopBar pct ∈ nsBarEvents dist td sync := by
  unfold nsBarEvents
  rw [h]
  exact List.mem_cons_self _ _

/-- C6: a successful `updateNextStop` during an active trip sets
`nextStopOrigin` to the position fetched at call time, and a subsequent
`updateProgress` call at that same position renders a next-stop progress of
0 % — the distance traveled from the new `nextStopOrigin` is zero. -/
theorem updateNextStop_reset_then_zero_progress (dist : Coord → Coord → ℚ)
    (env : UNSEnv) (td : TripData) (tracking : Bool) (o dd P ns : Coord)
    (ri : RouteInfo) (now2 : ℚ)
    (hA : td.isActive = true) (ho : td.origin = some o)
    (hd : td.destination = some dd)
    (hp : env.position = .ok P) (hg : env.geocode = .ok ns) (hr : env.route = .ok ri)
    (hPo : P.lat ≠ o.lat ∨ P.lng ≠ o.lng) (hdist : dist P P = 0)
    (hfar : ¬ td.totalDistance - dist o P ≤ 1/20) :
    (updateNextStop dist env td tracking).state.nextStopOrigin = some P ∧
    Event.nextStopBar 0 ∈
      (updateProgress dist now2 (some P) P
        (updateNextStop dist env td tracking).state
        (updateNextStop dist env td tracking).tracking).events := by
  rw [updateNextStop_success dist env td tracking P ns ri hA hp hg hr]
  set U : TripData := { td with nextStop := some ns, nextStopOrigin := some P,
                                nextStopRouteInfo := some ri } with hU
  have hf := updateProgress_frame dist env.now (some P) P U tracking
  set S : TripData := (updateProgress dist env.now (some P) P U tracking).state with hS
  have hSo : S.origin = some o := by rw [hf.1]; exact ho
  have hSd : S.destination = some dd := by rw [hf.2.1]; exact hd
  have hSns : S.nextStop = some ns := by rw [hf.2.2.1]
  have hSnso : S.nextStopOrigin = some P := by rw [hf.2.2.2.1]
  have hSri : S.nextStopRouteInfo = some ri := by rw [hf.2.2.2.2.1]
  have hStot : S.totalDistance = td.totalDistance := by rw [hf.2.2.2.2.2.2.1]
  have hfa := updateProgress_far_active dist env.now (some P) P U tracking o dd
    ho hd hA hfar
  constructor
  · exact hSnso
  · rw [hfa.2]
    rw [updateProgress_active dist now2 (some P) P S tracking o dd hSo hSd hfa.1]
    have hfar2 : ¬ S.totalDistance - dist o P ≤ 1/20 := by rw [hStot]; exact hfar
    simp only [if_neg hfar2]
    have hz : updateNextStopProgress dist
        { S with distanceTraveled := dist o P, lastUpdateTime := some now2,
                 speedHistory := appendSpeedSample S now2 (dist o P) } (some P)
        = some (0, decide (dist P ns ≤ 1/20)) := by
      apply updateNextStopProgress_updated_zero dist _ o P ns ri
      · exact hSns
      · exact hSo
      · exact hSnso
      · exact hSri
      · exact hPo
      · exact hdist
    have hmem := nextStopBar_mem dist _ (some P) 0 _ hz
    simp only [List.mem_append, List.not_mem_nil, false_or]
    exact Or.inl hmem

/-- An `updateNextStop` environment whose three awaited calls all succeed. -/
def envUNS : UNSEnv :=
  { position := .ok ⟨2, 2⟩, geocode := .ok ⟨3, 3⟩,
    route := .ok ⟨7, 10, 42, none⟩, now := 61000 }

/-- Witness for C6 at a concrete successful stop update. -/
theorem updateNextStop_reset_then_zero_progress_witness :
    (updateNextStop flatDist envUNS tdBase true).state.nextStopOrigin
      = some ⟨2, 2⟩ ∧
    Event.nextStopBar 0 ∈
      (updateProgress flatDist 120000 (some ⟨2, 2⟩) ⟨2, 2⟩
        (updateNextStop flatDist envUNS tdBase true).state
        (updateNextStop flatDist envUNS tdBase true).tracking).events :=
  updateNextStop_reset_then_zero_progress flatDist envUNS tdBase true
    ⟨0, 0⟩ ⟨1, 1⟩ ⟨2, 2⟩ ⟨3, 3⟩ ⟨7, 10, 42, none⟩ 120000
    rfl rfl rfl rfl rfl rfl
    (Or.inl (by norm_num)) (by norm_num [flatDist]) (by norm_num [flatDist, tdBase])

/-- The cleared state written by `resetTrip` (progress.js 2084-2098). -/
def emptyTrip : TripData :=
  { origin := none, destination := none, nextStop := none, nextStopOrigin := none,
    nextStopRouteInfo := none, startTime := none, totalDistance := 0,
    distanceTraveled := 0, isActive := false, routeInfo := none,
    speedHistory := [], lastUpdateTime := none }

/-- A `startTrip` environment in which every collaborator call succeeds. -/
def envStartOk : StartEnv :=
  { position := .ok ⟨0, 0⟩, geocode := fun _ => .ok ⟨1, 1⟩,
    route := .ok ⟨100, 80, 75, none⟩, position2 := .ok ⟨0, 0⟩, now := 1000 }

/-- Counterexample for C8: a successful `updateNextStop` does not write only
`nextStop`, `nextStopOrigin` and `nextStopRouteInfo` — through the trailing
`updateProgress` it triggers (progress.js 2068-2071) it also rewrites
`distanceTraveled`, here from 0 to 5. -/
theorem updateNextStop_writes_beyond_stop_fields_cex :
    (updateNextStop flatDist envUNS tdBase true).result
      = .ok (updateNextStop flatDist envUNS tdBase true).state ∧
    tdBase.distanceTraveled = 0 ∧
    (updateNextStop flatDist envUNS tdBase true).state.distanceTraveled = 5 := by
  refine ⟨?_, rfl, ?_⟩
  · rw [updateNextStop_success flatDist envUNS tdBase true ⟨2, 2⟩ ⟨3, 3⟩
      ⟨7, 10, 42, none⟩ rfl rfl rfl rfl]
  · rw [updateNextStop_success flatDist envUNS tdBase true ⟨2, 2⟩ ⟨3, 3⟩
      ⟨7, 10, 42, none⟩ rfl rfl rfl rfl]
    norm_num [updateProgress, appendSpeedSample, nsBarEvents, updateNextStopProgress,
      clampPct, tdBase, flatDist]

theorem updateNextStop_totalDistance (dist : Coord → Coord → ℚ) (env : UNSEnv)
    (td : TripData) (tracking : Bool) :
    (updateNextStop dist env td tracking).state.totalDistance = td.totalDistance := by
  unfold updateNextStop
  by_cases hA : td.isActive = true
  case neg =>
    simp only [Bool.not_eq_true] at hA
    rw [hA]
    rfl
  rw [hA]
  rcases hp : env.position with e | P
  · rfl
  rcases hg : env.geocode with e | ns
  · rfl
  rcases hr : env.route with e | ri
  · rfl
  exact (updateProgress_frame dist env.now (some P) P _ tracking).2.2.2.2.2.2.1

theorem startTrip_sets_totalDistance (senv : StartEnv) (destAddr : String)
    (nsAddr : Option String) (td0 : TripData) (tr0 : Bool) (ri : RouteInfo)
    (td' : TripData) (hroute : senv.route = .ok ri)
    (hok : (startTrip senv destAddr nsAddr td0 tr0).result = .ok td') :
    td'.totalDistance = ri.distance := by
  unfold startTrip at hok
  rcases hp : senv.position with e | origin <;> rw [hp] at hok
  · simp at hok
  rcases hg : senv.geocode destAddr with e | dc <;> rw [hg] at hok
  · simp at hok
  rw [hroute] at hok
  rcases nsAddr with _ | a <;> try dsimp only at hok
  · rcases hp2 : senv.position2 with e | c2 <;> rw [hp2] at hok <;>
      try dsimp only at hok
    · exact absurd hok (by simp)
    · injection hok with hok
      rw [← hok]
  · by_cases ht : jsTrim a = ""
    · rw [if_neg (not_not_intro ht)] at hok
      try dsimp only at hok
      rcases hp2 : senv.position2 with e | c2 <;> rw [hp2] at hok <;>
        try dsimp only at hok
      · exact absurd hok (by simp)
      · injection hok with hok
        rw [← hok]
    · rw [if_pos ht] at hok
      rcases hga : senv.geocode a with e | c <;> rw [hga] at hok <;>
        try dsimp only [Except.map] at hok
      · exact absurd hok (by simp)
      rcases hp2 : senv.position2 with e | c2 <;> rw [hp2] at hok <;>
        try dsimp only at hok
      · exact absurd hok (by simp)
      · injection hok with hok
        rw [← hok]

/-- C8 (amended): `totalDistance` is assigned at trip start from the
origin→destination route estimate and is never mutated afterwards: every
`updateProgress` call and every `updateNextStop` call — which, besides
writing `nextStop`, `nextStopOrigin` and `nextStopRouteInfo`, also refreshes
the progress-derived fields through the `updateProgress` it triggers —
leaves `totalDistance` unchanged. -/
theorem totalDistance_set_once_never_mutated
    (dist : Coord → Coord → ℚ) (now : ℚ) (sync : Option Coord) (pos : Coord)
    (td : TripData) (tracking : Bool) (env : UNSEnv) (senv : StartEnv)
    (destAddr : String) (nsAddr : Option String) (td0 : TripData) (tr0 : Bool)
    (ri : RouteInfo) (td' : TripData)
    (hroute : senv.route = .ok ri)
    (hok : (startTrip senv destAddr nsAddr td0 tr0).result = .ok td') :
    td'.totalDistance = ri.distance ∧
    (updateProgress dist now sync pos td tracking).state.totalDistance
      = td.totalDistance ∧
    (updateNextStop dist env td tracking).state.totalDistance = td.totalDistance :=
  ⟨startTrip_sets_totalDistance senv destAddr nsAddr td0 tr0 ri td' hroute hok,
   (updateProgress_frame dist now sync pos td tracking).2.2.2.2.2.2.1,
   updateNextStop_totalDistance dist env td tracking⟩

/-- Witness for C8 at a concrete successful start, fix and stop update. -/
theorem totalDistance_set_once_never_mutated_witness :
    (startTrip envStartOk "Utrecht" none emptyTrip false).state.totalDistance
      = (⟨100, 80, 75, none⟩ : RouteInfo).distance ∧
    (updateProgress flatDist 2000 (some ⟨2, 2⟩) ⟨2, 2⟩ tdBase
        true).state.totalDistance = tdBase.totalDistance ∧
    (updateNextStop flatDist envUNS tdBase true).state.totalDistance
      = tdBase.totalDistance :=
  totalDistance_set_once_never_mutated flatDist 2000 (some ⟨2, 2⟩) ⟨2, 2⟩
    tdBase true envUNS envStartOk "Utrecht" none emptyTrip false
    ⟨100, 80, 75, none⟩ (startTrip envStartOk "Utrecht" none emptyTrip false).state
    rfl rfl

/-- A mid-trip state with a route duration available: 95 of 100 km traveled,
route duration 10 minutes. -/
def td9 : TripData :=
  { origin := some ⟨0, 0⟩, destination := some ⟨1, 1⟩, nextStop := none,
    nextStopOrigin := none, nextStopRouteInfo := none,
    startTime := some 1000, totalDistance := 100, distanceTraveled := 95,
    isActive := true, routeInfo := some ⟨100, 10, 600, none⟩,
    speedHistory := [], lastUpdateTime := some 1000 }

/-- The same state with no route data, forcing the speed-based fallback. -/
def tdNoRoute : TripData := { td9 with routeInfo := none }

/-- Counterexample for C9: when a route duration is available,
`calculateTimeRemaining` takes the route-duration path (progress.js
1744-1764) and never applies the remaining-distance sanity clamp: at 5 km
remaining it reports 0.5 min, although any expected speed capped at
≤ 50 km/h would give at least 5/50 × 60 = 6 min. -/
theorem calculateTimeRemaining_skips_clamp_cex :
    calculateTimeRemaining td9 2000 5 = .minutes (1/2) ∧
    ¬ ((5:ℚ) / 50 * 60 ≤ 1/2) := by
  constructor
  · norm_num [calculateTimeRemaining, td9]
  · norm_num

/-- C9 (amended): the remaining-distance sanity clamp is applied only on the
speed-based fallback path of `calculateTimeRemaining`, taken when no route
duration is available; there the estimate divides the remaining distance by
`sanityClamp remaining (expectedSpeedFallback …)`, a speed that is at least
80 km/h above 50 km remaining, at least 60 km/h in (10, 50] km, and at most
50 km/h at 10 km or less.  The route-duration path bypasses the clamp. -/
theorem calculateTimeRemaining_fallback_sanity_clamp (td : TripData)
    (now remainingDistance : ℚ)
    (hst : td.startTime.getD 0 ≠ 0) (hdt : td.distanceTraveled ≠ 0)
    (hnoroute : td.routeInfo = none ∨
      ∃ ri, td.routeInfo = some ri ∧ ri.duration = 0) :
    calculateTimeRemaining td now remainingDistance =
      .minutes (remainingDistance /
        sanityClamp remainingDistance (expectedSpeedFallback td now) * 60) ∧
    (50 < remainingDistance →
      80 ≤ sanityClamp remainingDistance (expectedSpeedFallback td now)) ∧
    (10 < remainingDistance → remainingDistance ≤ 50 →
      60 ≤ sanityClamp remainingDistance (expectedSpeedFallback td now)) ∧
    (remainingDistance ≤ 10 →
      sanityClamp remainingDistance (expectedSpeedFallback td now) ≤ 50) := by
  refine ⟨?_, ?_, ?_, ?_⟩
  · unfold calculateTimeRemaining
    rw [if_neg (by push_neg; exact ⟨hst, hdt⟩)]
    rcases hnoroute with h | ⟨ri, h, hdur⟩
    · rw [h]
    · rw [h]
      simp [hdur]
  · intro h1
    unfold sanityClamp
    rw [if_pos h1]
    exact le_max_right _ _
  · intro h1 h2
    unfold sanityClamp
    rw [if_neg (not_lt.mpr h2), if_pos h1]
    exact le_max_right _ _
  · intro h1
    unfold sanityClamp
    rw [if_neg (not_lt.mpr (by linarith)), if_neg (not_lt.mpr h1)]
    exact min_le_right _ _

/-- Witness for C9 on the fallback path at 5 km remaining. -/
theorem calculateTimeRemaining_fallback_sanity_clamp_witness :
    calculateTimeRemaining tdNoRoute 2000 5 =
      .minutes (5 / sanityClamp 5 (expectedSpeedFallback tdNoRoute 2000) * 60) ∧
    ((50:ℚ) < 5 → 80 ≤ sanityClamp 5 (expectedSpeedFallback tdNoRoute 2000)) ∧
    ((10:ℚ) < 5 → (5:ℚ) ≤ 50 →
      60 ≤ sanityClamp 5 (expectedSpeedFallback tdNoRoute 2000)) ∧
    ((5:ℚ) ≤ 10 → sanityClamp 5 (expectedSpeedFallback tdNoRoute 2000) ≤ 50) :=
  calculateTimeRemaining_fallback_sanity_clamp tdNoRoute 2000 5
    (by norm_num [tdNoRoute, td9]) (by norm_num [tdNoRoute, td9]) (Or.inl rfl)

/-- Counterexample for C7: with the default configuration and an
always-failing operation, the delays between attempts are exponential —
1000 ms then 2000 ms — not a fixed 1 s between every pair of attempts. -/
theorem execute_delay_not_fixed_cex :
    (defaultRetry.execute (fun _ => (none : Option Unit))).delays = [1000, 2000] ∧
    (2000:ℚ) ∈ (defaultRetry.execute (fun _ => (none : Option Unit))).delays ∧
    (2000:ℚ) ≠ 1000 := by
  refine ⟨?_, ?_, by norm_num⟩ <;>
    norm_num [ModelRetry.execute, executeLoop, defaultRetry]

/-- C7 (amended): `ModelRetry.execute` attempts a failing operation at most
`maxAttempts` (default 3) times, sleeping `baseDelay × 2^(k−1)` between
attempts — an exponential backoff of 1 s then 2 s by default, not a fixed
delay; once the attempts are exhausted, the 30 s wait is served inside that
same call, which then rejects with the attempt counter reset to 0 so that a
later call attempts again; a call entered while the counter is already
exhausted returns immediately with no result — not with a
temporarily-unavailable error. -/
theorem execute_capped_attempts_cooldown (op : ℕ → Option Unit)
    (mr : ModelRetry) (hfail : ∀ n, op n = none)
    (hex : mr.maxAttempts ≤ mr.attempts) :
    (defaultRetry.execute op).outcome = .failedAfterWait ∧
    (defaultRetry.execute op).delays = [1000, 2000] ∧
    (defaultRetry.execute op).waitedCooldown = true ∧
    (defaultRetry.execute op).final.attempts = 0 ∧
    (mr.execute op).outcome = .noResult ∧
    (mr.execute op).delays = [] := by
  have hdef : defaultRetry.execute op =
      ⟨.failedAfterWait, [1000, 2000], true, { defaultRetry with attempts := 0, isWaiting := false }⟩ := by
    unfold ModelRetry.execute
    norm_num [executeLoop, defaultRetry, hfail]
  have hmr : mr.execute op = ⟨.noResult, [], false, mr⟩ := by
    unfold ModelRetry.execute
    rw [Nat.sub_eq_zero_of_le hex]
    simp only [executeLoop]
    rw [if_neg (not_lt.mpr hex)]
  rw [hdef, hmr]
  exact ⟨rfl, rfl, rfl, rfl, rfl, rfl⟩

/-- Witness for C7 with the default instance, an exhausted instance and an
always-failing operation. -/
theorem execute_capped_attempts_cooldown_witness :
    (defaultRetry.execute (fun _ => (none : Option Unit))).outcome
      = .failedAfterWait ∧
    (defaultRetry.execute (fun _ => (none : Option Unit))).delays
      = [1000, 2000] ∧
    (defaultRetry.execute (fun _ => (none : Option Unit))).waitedCooldown = true ∧
    (defaultRetry.execute (fun _ => (none : Option Unit))).final.attempts = 0 ∧
    (ModelRetry.execute ⟨3, 1000, 3, true⟩ (fun _ => (none : Option Unit))).outcome
      = .noResult ∧
    (ModelRetry.execute ⟨3, 1000, 3, true⟩ (fun _ => (none : Option Unit))).delays
      = [] :=
  execute_capped_attempts_cooldown (fun _ => none) ⟨3, 1000, 3, true⟩
    (fun _ => rfl) (by norm_num)

/-- A `startTrip` environment in which only the next-stop geocode fails. -/
def envStartNsFail : StartEnv :=
  { position := .ok ⟨0, 0⟩,
    geocode := fun a => if a = "stopadres" then .error "Address not found"
                        else .ok ⟨1, 1⟩,
    route := .ok ⟨100, 80, 75, none⟩, position2 := .ok ⟨0, 0⟩, now := 1000 }

/-- An app-level environment in which only the next-stop geocode fails. -/
def appEnvNsFail : AppEnv :=
  { permission := true, position := .ok ⟨0, 0⟩, geocodeDest := .ok ⟨1, 1⟩,
    geocodeNextStop := .error "Address not found",
    route := .ok ⟨100, 80, 75, none⟩, now := 1000 }

/-- Counterexample for C4: in the engine's `startTrip` (progress.js
1240-1244) a failing next-stop geocode is fatal — the call rejects with that
error and the trip never reaches the active state. -/
theorem startTrip_nextStop_failure_aborts_cex :
    (startTrip envStartNsFail "Utrecht" (some "stopadres") emptyTrip
        false).result = .error "Address not found" ∧
    (startTrip envStartNsFail "Utrecht" (some "stopadres") emptyTrip
        false).state = emptyTrip ∧
    (startTrip envStartNsFail "Utrecht" (some "stopadres") emptyTrip
        false).state.isActive = false := by
  exact ⟨rfl, rfl, rfl⟩

/-- C4 (amended): in the engine's `startTrip` a next-stop geocode failure is
fatal — the call rejects with that error and the state is untouched, exactly
like destination-geocode and position failures; the non-fatal behaviour of
the claim — the trip still starts, with a null next stop, and the caller
sees a warning — is implemented in the app-level start flow
`TripApp.handleStartTrip` (app.js 184-193), where destination-geocode and
position failures still abort the start. -/
theorem startTrip_nextStop_failure_fatal_engine_nonfatal_app
    (env : StartEnv) (destAddr a : String) (td : TripData) (tr : Bool)
    (o dc : Coord) (e : Err)
    (hp : env.position = .ok o) (hg : env.geocode destAddr = .ok dc)
    (ha : jsTrim a ≠ "") (hga : env.geocode a = .error e) :
    startTrip env destAddr (some a) td tr = ⟨.error e, td, tr⟩ ∧
    (∀ (aenv : AppEnv) (dI nI : String) (p c : Coord) (ri : RouteInfo) (e2 : Err),
      jsTrim dI ≠ "" → aenv.permission = true → aenv.position = .ok p →
      aenv.geocodeDest = .ok c → jsTrim nI ≠ "" →
      aenv.geocodeNextStop = .error e2 → aenv.route = .ok ri →
      (handleStartTrip aenv dI nI).isActive = true ∧
      (handleStartTrip aenv dI nI).trip.map AppTrip.nextStop = some none ∧
      (⟨.warning, "Tussenstop niet gevonden, wordt overgeslagen"⟩ : Toast)
        ∈ (handleStartTrip aenv dI nI).toasts) ∧
    (∀ (aenv : AppEnv) (dI nI : String) (e2 : Err),
      jsTrim dI ≠ "" → aenv.permission = true → aenv.position = .error e2 →
      (handleStartTrip aenv dI nI).isActive = false ∧
      (handleStartTrip aenv dI nI).trip = none) ∧
    (∀ (aenv : AppEnv) (dI nI : String) (p : Coord) (e2 : Err),
      jsTrim dI ≠ "" → aenv.permission = true → aenv.position = .ok p →
      aenv.geocodeDest = .error e2 →
      (handleStartTrip aenv dI nI).isActive = false ∧
      (handleStartTrip aenv dI nI).trip = none) := by
  refine ⟨?_, ?_, ?_, ?_⟩
  · unfold startTrip
    rw [hp]
    dsimp only
    rw [hg]
    dsimp only
    rw [if_pos ha, hga]
    dsimp only [Except.map]
  · intro aenv dI nI p c ri e2 hdI hperm hpos hdest hnI hns hroute
    unfold handleStartTrip
    try dsimp only
    rw [if_neg hdI, hperm]
    try dsimp only
    rw [hpos]
    try dsimp only
    rw [hdest]
    try dsimp only
    rw [if_pos hnI, hns]
    try dsimp only
    rw [hroute]
    refine ⟨rfl, rfl, ?_⟩
    simp
  · intro aenv dI nI e2 hdI hperm hpos
    unfold handleStartTrip
    try dsimp only
    rw [if_neg hdI, hperm]
    try dsimp only
    rw [hpos]
    exact ⟨rfl, rfl⟩
  · intro aenv dI nI p e2 hdI hperm hpos hdest
    unfold handleStartTrip
    try dsimp only
    rw [if_neg hdI, hperm]
    try dsimp only
    rw [hpos]
    try dsimp only
    rw [hdest]
    exact ⟨rfl, rfl⟩

/-- An app-level environment whose current-position fetch fails. -/
def appEnvPosFail : AppEnv :=
  { permission := true, position := .error "Locatie informatie is niet beschikbaar.",
    geocodeDest := .ok ⟨1, 1⟩, geocodeNextStop := .ok ⟨2, 2⟩,
    route := .ok ⟨100, 80, 75, none⟩, now := 1000 }

/-- An app-level environment whose destination geocode fails. -/
def appEnvDestFail : AppEnv :=
  { permission := true, position := .ok ⟨0, 0⟩,
    geocodeDest := .error "Address not found", geocodeNextStop := .ok ⟨2, 2⟩,
    route := .ok ⟨100, 80, 75, none⟩, now := 1000 }

/-- Witness for C4: the engine aborts while the app flow starts the trip with
a warning and a null next stop; app-level position and destination failures
abort. -/
theorem startTrip_nextStop_failure_fatal_engine_nonfatal_app_witness :
    startTrip envStartNsFail "Utrecht" (some "stopadres") emptyTrip false
      = ⟨.error "Address not found", emptyTrip, false⟩ ∧
    ((handleStartTrip appEnvNsFail "Utrecht" "stopadres").isActive = true ∧
     (handleStartTrip appEnvNsFail "Utrecht" "stopadres").trip.map
        AppTrip.nextStop = some none ∧
     (⟨.warning, "Tussenstop niet gevonden, wordt overgeslagen"⟩ : Toast)
       ∈ (handleStartTrip appEnvNsFail "Utrecht" "stopadres").toasts) ∧
    ((handleStartTrip appEnvPosFail "Utrecht" "stopadres").isActive = false ∧
     (handleStartTrip appEnvPosFail "Utrecht" "stopadres").trip = none) ∧
    ((handleStartTrip appEnvDestFail "Utrecht" "stopadres").isActive = false ∧
     (handleStartTrip appEnvDestFail "Utrecht" "stopadres").trip = none) := by
  have h := startTrip_nextStop_failure_fatal_engine_nonfatal_app
    envStartNsFail "Utrecht" "stopadres" emptyTrip false ⟨0, 0⟩ ⟨1, 1⟩
    "Address not found" rfl rfl (by decide) rfl
  refine ⟨h.1, ?_, ?_, ?_⟩
  · exact h.2.1 appEnvNsFail "Utrecht" "stopadres" ⟨0, 0⟩ ⟨1, 1⟩
      ⟨100, 80, 75, none⟩ "Address not found" (by decide) rfl rfl rfl
      (by decide) rfl rfl
  · exact h.2.2.1 appEnvPosFail "Utrecht" "stopadres"
      "Locatie informatie is niet beschikbaar." (by decide) rfl rfl
  · exact h.2.2.2 appEnvDestFail "Utrecht" "stopadres" ⟨0, 0⟩
      "Address not found" (by decide) rfl rfl rfl

end Bijna


